import Mathlib

/-!
Shallow embedding of the RoCC ("ccmatic") congestion-control module
(tcp_rocc_ccmatic.c).  Machine integers are modelled as `Nat` with explicit
reductions modulo 2^16 / 2^32 / 2^64 at the points where the C code performs
fixed-width arithmetic; signed C fields (`rs->delivered : s32`,
`rs->interval_us : long`, `rs->rtt_us : long`) are modelled as `Int` wrapped
into their two's-complement range.  Divisions are `Nat` division (total); the
divisors the C code would evaluate are additionally recorded by instrumented
variants so that division-by-zero claims can be stated.
-/

namespace Rocc

/-! ### Fixed-width arithmetic helpers -/

def U16C : Nat := 65536

def U32C : Nat := 4294967296

def U64C : Nat := 18446744073709551616

def U32MAX : Nat := 4294967295

/-- Reduction of an unsigned 32-bit C expression. -/
def u32 (n : Nat) : Nat := n % U32C

/-- Reduction of an unsigned 64-bit C expression. -/
def u64 (n : Nat) : Nat := n % U64C

/-- Reduction of an unsigned 16-bit C expression. -/
def u16 (n : Nat) : Nat := n % U16C

/-- u32 subtraction `a - b` with wraparound, for `a b < 2^32`. -/
def u32sub (a b : Nat) : Nat := (u32 a + (U32C - u32 b)) % U32C

/-- u64 subtraction `a - b` with wraparound, for `a b < 2^64`. -/
def u64sub (a b : Nat) : Nat := (u64 a + (U64C - u64 b)) % U64C

/-- Two's-complement wrap of an `Int` into the s32 range. -/
def s32wrap (z : Int) : Int := (z + 2147483648) % 4294967296 - 2147483648

/-- Two's-complement wrap of an `Int` into the s64 range. -/
def s64wrap (z : Int) : Int :=
  (z + 9223372036854775808) % 18446744073709551616 - 9223372036854775808

/-- C conversion of a signed value to u32 (two's complement reinterpretation). -/
def u32ofInt (z : Int) : Nat := (z % (4294967296 : Int)).toNat

/-! ### Compile-time constants of the module -/

def U64_S_TO_US : Nat := 1000000

def INIT_MAX_C : Nat := 100000

def INIT_MIN_C : Nat := 1

def rocc_num_intervals : Nat := 16

def rocc_num_intervals_mask : Nat := 15

def rocc_alpha_segments : Nat := 5

def rocc_loss_thresh : Nat := 64

def rocc_history_periods : Nat := 8

def rocc_timeout_period : Nat := 12

/-- rocc_significant_mult_percent from the source. -/
def rocc_sig_mult_percent : Nat := 110

/-! ### Kernel helper from net/tcp.h:
`static inline u32 tcp_stamp_us_delta(u64 t1, u64 t0)
 { return max_t(s64, t1 - t0, 0); }`
The u64 difference is reinterpreted as s64, clamped at 0 from below, and the
s64 result is truncated to u32 on return. -/
def tcp_stamp_us_delta (t1 t0 : Nat) : Nat :=
  let d := u64sub t1 t0
  (if d < 9223372036854775808 then d else 0) % U32C

/-! ### Data model -/

inductive rocc_state where
  | SLOW_START : rocc_state
  | CONG_AVOID : rocc_state
deriving DecidableEq

export rocc_state (SLOW_START CONG_AVOID)

structure rocc_interval where
  start_us : Nat
  pkts_acked : Nat
  pkts_lost : Nat
  app_limited : Bool
  min_rtt_us : Nat
  max_rtt_us : Nat
  ic_rs_prior_mstamp : Nat
  ic_rs_prior_delivered : Nat
  ic_bytes_sent : Nat
  ic_delivered : Nat
  ic_sending_rate : Nat
  processed : Bool
  invalid : Bool
deriving DecidableEq

structure belief_data where
  min_c : Nat
  max_c : Nat
  min_qdel : Nat
  min_c_lambda : Nat
  last_min_c_lambda : Nat
  odd_even : Bool
deriving DecidableEq

structure rocc_data where
  intervals : List rocc_interval
  intervals_head : Nat
  min_rtt_us : Nat
  id : Nat
  last_decrease_seq : Nat
  loss_happened : Bool
  last_update_tstamp : Nat
  last_segs_sent : Nat
  last_segs_delivered : Nat
  estimated_cumulative_segs_sent : Nat
  beliefs : belief_data
  last_timeout_tstamp : Nat
  last_timeout_minc : Nat
  last_timeout_maxc : Nat
  state : rocc_state
  snd_cwnd : Nat
  sk_pacing_rate : Nat
deriving DecidableEq

/-- Value of every slot after kzalloc plus the init loop of rocc_init. -/
def ivInit : rocc_interval :=
  { start_us := 0, pkts_acked := 0, pkts_lost := 0, app_limited := false
    min_rtt_us := U32MAX, max_rtt_us := 0
    ic_rs_prior_mstamp := 0, ic_rs_prior_delivered := 0
    ic_bytes_sent := 0, ic_delivered := 0, ic_sending_rate := 0
    processed := false, invalid := true }

/-- Default used by list reads; every in-range read hits a real slot. -/
def ivDefault : rocc_interval := ivInit

def ivGet (l : List rocc_interval) (i : Nat) : rocc_interval := l.getD i ivDefault

def ivSet (l : List rocc_interval) (i : Nat) (v : rocc_interval) :
    List rocc_interval := l.set i v

/-- One incoming measurement: the live fields of the rate_sample together
with the socket fields the module reads on that call. -/
structure Sample where
  rs_delivered : Int
  rs_interval_us : Int
  rs_acked_sacked : Nat
  rs_losses : Nat
  rs_is_app_limited : Bool
  rs_rtt_us : Int
  rs_prior_in_flight : Nat
  rs_prior_mstamp : Nat
  rs_prior_delivered : Nat
  tsk_srtt_us : Nat
  tsk_tcp_mstamp : Nat
  tsk_bytes_sent : Nat
  tsk_delivered : Nat
  tsk_mss_cache : Nat
deriving DecidableEq

/-- Reduce all sample fields into the ranges of their C types. -/
def Sample.norm (s : Sample) : Sample :=
  { rs_delivered := s32wrap s.rs_delivered
    rs_interval_us := s64wrap s.rs_interval_us
    rs_acked_sacked := u32 s.rs_acked_sacked
    rs_losses := u32 s.rs_losses
    rs_is_app_limited := s.rs_is_app_limited
    rs_rtt_us := s64wrap s.rs_rtt_us
    rs_prior_in_flight := u32 s.rs_prior_in_flight
    rs_prior_mstamp := u64 s.rs_prior_mstamp
    rs_prior_delivered := u32 s.rs_prior_delivered
    tsk_srtt_us := u32 s.tsk_srtt_us
    tsk_tcp_mstamp := u64 s.tsk_tcp_mstamp
    tsk_bytes_sent := u64 s.tsk_bytes_sent
    tsk_delivered := u32 s.tsk_delivered
    tsk_mss_cache := u32 s.tsk_mss_cache }

/-- Connection-setup inputs of rocc_init that are not constants. -/
structure InitParams where
  snd_nxt : Nat
  idv : Nat
  cwnd0 : Nat
  pacing0 : Nat
deriving DecidableEq

/-- rocc_init (lines 115-177). -/
def rocc_init (p : InitParams) : rocc_data :=
  { intervals := List.replicate rocc_num_intervals ivInit
    intervals_head := 0
    min_rtt_us := U32MAX
    id := p.idv
    last_decrease_seq := p.snd_nxt
    loss_happened := false
    last_update_tstamp := 0
    last_segs_sent := 0
    last_segs_delivered := 0
    estimated_cumulative_segs_sent := 0
    beliefs :=
      { min_c := INIT_MIN_C, max_c := INIT_MAX_C, min_qdel := 0
        min_c_lambda := INIT_MIN_C, last_min_c_lambda := INIT_MIN_C
        odd_even := false }
    last_timeout_tstamp := 0
    last_timeout_minc := INIT_MIN_C
    last_timeout_maxc := INIT_MAX_C
    state := SLOW_START
    snd_cwnd := p.cwnd0
    sk_pacing_rate := p.pacing0 }

/-- get_loss_mode (lines 191-195); the u32 sum acked+lost wraps before the
widening cast to u64. -/
def get_loss_mode (pkts_acked pkts_lost : Nat) : Bool :=
  decide (pkts_lost * 1024 > u32 (pkts_acked + pkts_lost) * rocc_loss_thresh)

/-- The timeout test shared verbatim by update_beliefs (lines 227-229) and
update_beliefs_send (lines 354-356): more than
rocc_timeout_period * min_rtt_us (a u32 product) microseconds elapsed between
the head interval's start and the last timeout. -/
def update_beliefs_timeout (rocc : rocc_data) : Bool :=
  let et_tstamp :=
    (ivGet rocc.intervals (rocc.intervals_head &&& rocc_num_intervals_mask)).start_us
  decide (tcp_stamp_us_delta et_tstamp rocc.last_timeout_tstamp >
    u32 (rocc_timeout_period * rocc.min_rtt_us))

/-- rocc_alpha_rate (line 224 / line 580):
(rocc_alpha_segments * rocc_get_mss(tsk) * U64_S_TO_US) / rocc->min_rtt_us.
The first product is u32 * u32 and wraps mod 2^32 before the multiply by
the u64 constant U64_S_TO_US widens the computation. -/
def rocc_alpha_rate (min_rtt mss : Nat) : Nat :=
  u64 (u32 (rocc_alpha_segments * mss) * U64_S_TO_US) / min_rtt

/-- The alpha rate as the claim words it — alpha_segments * mss * 1e6 /
min_rtt_us with exact integer arithmetic, no intermediate u32 wrap.  Kept
separate from rocc_alpha_rate (the program's value) to compare the two. -/
def spec_alpha_rate (min_rtt mss : Nat) : Nat :=
  rocc_alpha_segments * mss * U64_S_TO_US / min_rtt

/-- max_c_lower_clamp (line 225). -/
def max_c_lower_clamp (min_rtt mss : Nat) : Nat :=
  max INIT_MIN_C (rocc_alpha_rate min_rtt mss)

/-- Denominator of the new_min_c division (line 272): the u32 sum
window + max_jitter. -/
def min_c_denom (window rtprop : Nat) : Nat := u32 (window + rtprop)

/-- Denominator of the new_max_c division (line 276): the u32 difference
window - max_jitter. -/
def max_c_denom (window rtprop : Nat) : Nat := u32sub window rtprop

/-- Loop body of the capacity scan of update_beliefs (lines 245-278),
iterating st upward with explicit fuel.  Besides new_min_c and new_max_c it
returns the raw window lengths used in the min_c divisions and in the
executed max_c divisions (instrumentation; it feeds nothing back). -/
def ubScanGo (intervals : List rocc_interval) (et et_tstamp rtprop : Nat) :
    Nat → Nat → Bool → Nat → Nat → Nat → List Nat → List Nat →
    Nat × Nat × List Nat × List Nat
  | _, 0, _, _, minC, maxC, minWs, maxWs => (minC, maxC, minWs, maxWs)
  | st, fuel+1, cum, cumAcked, minC, maxC, minWs, maxWs =>
    let iv := ivGet intervals ((et + st) &&& rocc_num_intervals_mask)
    if iv.invalid then (minC, maxC, minWs, maxWs)
    else
      let window := tcp_stamp_us_delta et_tstamp iv.start_us
      let this_high_delay := decide (iv.min_rtt_us > u32 (rtprop + rtprop))
      let this_loss := get_loss_mode iv.pkts_acked iv.pkts_lost
      let this_utilized := this_loss || this_high_delay
      let cum2 := if st = 1 then this_utilized else cum && this_utilized
      let acked2 := u32 (cumAcked + iv.pkts_acked)
      let minC2 :=
        max minC (u64 (U64_S_TO_US * acked2) / min_c_denom window rtprop)
      if cum2 && decide (st > 1) then
        let maxC2 :=
          min maxC (u64 (U64_S_TO_US * acked2) / max_c_denom window rtprop)
        ubScanGo intervals et et_tstamp rtprop (st + 1) fuel cum2 acked2
          minC2 maxC2 (minWs ++ [window]) (maxWs ++ [window])
      else
        ubScanGo intervals et et_tstamp rtprop (st + 1) fuel cum2 acked2
          minC2 maxC (minWs ++ [window]) maxWs

/-- The capacity scan of update_beliefs run from st = 1 as in the source. -/
def ubScan (rocc : rocc_data) : Nat × Nat × List Nat × List Nat :=
  let et := rocc.intervals_head
  let et_tstamp :=
    (ivGet rocc.intervals (et &&& rocc_num_intervals_mask)).start_us
  ubScanGo rocc.intervals et et_tstamp rocc.min_rtt_us 1 15 false 0
    INIT_MIN_C INIT_MAX_C [] []

/-- The raw window lengths of the min_c divisions and of the executed max_c
divisions of the capacity scan, for a given connection state. -/
def ubScanWindows (rocc : rocc_data) : List Nat × List Nat :=
  (ubScan rocc).2.2

/-- update_beliefs (lines 197-314). -/
def update_beliefs (rocc : rocc_data) (mss : Nat) : rocc_data :=
  let et := rocc.intervals_head
  let headIv := ivGet rocc.intervals (et &&& rocc_num_intervals_mask)
  let et_tstamp := headIv.start_us
  let rtprop := rocc.min_rtt_us
  let clamp := max_c_lower_clamp rtprop mss
  let timeout := update_beliefs_timeout rocc
  let b := rocc.beliefs
  let qdel :=
    if headIv.min_rtt_us > u32 (rtprop + rtprop) && !headIv.invalid then
      headIv.min_rtt_us - u32 (rtprop + rtprop)
    else 0
  let scan := ubScan rocc
  let new_min_c := scan.1
  let new_max_c := scan.2.1
  let r : Nat × Nat × Nat × Nat × Nat :=
    if timeout then
      let minc_changed := decide (new_min_c > rocc.last_timeout_minc)
      let maxc_changed := decide (new_max_c < rocc.last_timeout_maxc)
      let minc_changed_significantly :=
        decide (new_min_c >
          u64 (rocc_sig_mult_percent * rocc.last_timeout_minc) / 100)
      let maxc_changed_significantly :=
        decide (u64 (new_max_c * rocc_sig_mult_percent) / 100 <
          rocc.last_timeout_maxc)
      let beliefs_invalid := decide (new_max_c < new_min_c)
      let minc_came_close := minc_changed && beliefs_invalid
      let maxc_came_close := maxc_changed && beliefs_invalid
      let timeout_minc :=
        !minc_changed && (maxc_came_close || !maxc_changed_significantly)
      let timeout_maxc :=
        !maxc_changed && (minc_came_close || !minc_changed_significantly)
      let m1 := if timeout_minc then new_min_c else max b.min_c new_min_c
      let m2 :=
        if timeout_maxc then min (u64 (b.max_c * 3) / 2) new_max_c
        else min b.max_c new_max_c
      (m1, m2, et_tstamp, m1, m2)
    else
      (max b.min_c new_min_c, min b.max_c new_max_c,
        rocc.last_timeout_tstamp, rocc.last_timeout_minc,
        rocc.last_timeout_maxc)
  { rocc with
    beliefs :=
      { b with min_qdel := qdel, min_c := r.1, max_c := max r.2.1 clamp }
    last_timeout_tstamp := r.2.2.1
    last_timeout_minc := r.2.2.2.1
    last_timeout_maxc := r.2.2.2.2 }

/-- Loop body of the send-rate scan of update_beliefs_send (lines 360-392),
iterating st upward with explicit fuel.  Returns the (processed-marked)
interval list, new_min_c_lambda, the indices st whose candidate was folded
into the running max, and the divisors of the executed candidate divisions
(the last two are instrumentation; they feed nothing back). -/
def sendScanGo (mss rtprop delivered_1rtt_ago et : Nat) :
    List rocc_interval → Nat → Nat → Bool → Nat → List Nat → List Nat →
    List rocc_interval × Nat × List Nat × List Nat
  | intervals, _, 0, _, lam, contribs, divs => (intervals, lam, contribs, divs)
  | intervals, st, fuel+1, cum, lam, contribs, divs =>
    let iv := ivGet intervals ((et + st) &&& rocc_num_intervals_mask)
    if iv.invalid then (intervals, lam, contribs, divs)
    else
      let nfi := ivGet intervals ((et + st - 1) &&& rocc_num_intervals_mask)
      let this_high_delay := decide (iv.max_rtt_us > u32 (rtprop + rtprop))
      let this_loss := get_loss_mode iv.pkts_acked iv.pkts_lost
      let this_under_utilized := !this_loss && !this_high_delay
      let cum2 := cum && this_under_utilized
      if nfi.ic_delivered > delivered_1rtt_ago then
        sendScanGo mss rtprop delivered_1rtt_ago et intervals (st + 1) fuel
          cum2 lam contribs divs
      else
        let intervals2 :=
          ivSet intervals ((et + st) &&& rocc_num_intervals_mask)
            { iv with processed := true }
        if cum2 then
          let this_bytes_sent := u64sub nfi.ic_bytes_sent iv.ic_bytes_sent
          let this_interval_length := tcp_stamp_us_delta nfi.start_us iv.start_us
          let this_min_c_lambda :=
            u64 (this_bytes_sent * U64_S_TO_US) / mss /
              (this_interval_length + rtprop)
          sendScanGo mss rtprop delivered_1rtt_ago et intervals2 (st + 1) fuel
            cum2 (max lam this_min_c_lambda) (contribs ++ [st])
            (divs ++ [mss, this_interval_length + rtprop])
        else (intervals2, lam, contribs, divs)

/-- The under-utilization flag of the send-rate scan for the interval at
offset st (loss-free and max RTT within rtprop + jitter; lines 368-371, and
lines 346-349 for st = 0). -/
def sendUnder (l : List rocc_interval) (rtprop et st : Nat) : Bool :=
  let iv := ivGet l ((et + st) &&& rocc_num_intervals_mask)
  !get_loss_mode iv.pkts_acked iv.pkts_lost &&
    !decide (iv.max_rtt_us > u32 (rtprop + rtprop))

/-- Seed of the cumulative under-utilization flag: the head interval's own
under-utilization (lines 344-350; cum starts true and is and-ed with it). -/
def sendCum0 (rocc : rocc_data) : Bool :=
  sendUnder rocc.intervals rocc.min_rtt_us rocc.intervals_head 0

/-- The cumulative under-utilization flag after folding k further intervals
starting at offset st into the running value c. -/
def sendCumThrough (l : List rocc_interval) (rtprop et : Nat) :
    Bool → Nat → Nat → Bool
  | c, _, 0 => c
  | c, st, k+1 => sendCumThrough l rtprop et (c && sendUnder l rtprop et st) (st + 1) k

/-- The send-rate scan of update_beliefs_send, run from st = 1 with the
cumulative under-utilization flag seeded from the head interval
(lines 344-350). -/
def sendScan (rocc : rocc_data) (mss : Nat) :
    List rocc_interval × Nat × List Nat × List Nat :=
  let et := rocc.intervals_head
  let headIv := ivGet rocc.intervals (et &&& rocc_num_intervals_mask)
  let delivered_1rtt_ago := headIv.ic_rs_prior_delivered
  sendScanGo mss rocc.min_rtt_us delivered_1rtt_ago et rocc.intervals 1 15
    (sendCum0 rocc) INIT_MIN_C [] []

/-- Indices st whose interval contributed a candidate to new_min_c_lambda. -/
def sendScanContribs (rocc : rocc_data) (mss : Nat) : List Nat :=
  (sendScan rocc mss).2.2.1

/-- update_beliefs_send (lines 316-423). -/
def update_beliefs_send (rocc : rocc_data) (mss : Nat) : rocc_data :=
  let timeout := update_beliefs_timeout rocc
  let res := sendScan rocc mss
  let intervals2 := res.1
  let new_min_c_lambda := res.2.1
  let b := rocc.beliefs
  let b2 :=
    if new_min_c_lambda > b.min_c_lambda then
      { b with last_min_c_lambda := b.min_c_lambda
               min_c_lambda := new_min_c_lambda }
    else if timeout then
      if b.min_c_lambda > b.last_min_c_lambda then
        { b with min_c_lambda := max b.last_min_c_lambda new_min_c_lambda }
      else
        let decayed := max (u64 (2 * b.min_c_lambda) / 3) new_min_c_lambda
        { b with min_c_lambda := decayed }
    else b
  { rocc with intervals := intervals2, beliefs := b2 }

/-- Lines 509-513: the RTT estimate used for min_rtt_us maintenance. -/
def rtt_us_of (smp : Sample) : Nat :=
  if smp.tsk_srtt_us ≠ 0 then max (smp.tsk_srtt_us >>> 3) 1 else U32MAX

/-- Lines 515-516: fold the new RTT estimate into min_rtt_us. -/
def rocc_rtt_update (rocc : rocc_data) (smp : Sample) : rocc_data :=
  if rtt_us_of smp < rocc.min_rtt_us then
    { rocc with min_rtt_us := rtt_us_of smp }
  else rocc

/-- The shared condition of lines 534 and 584 (evaluated on the
min_rtt-updated state, before last_update_tstamp moves): a new interval is
pushed, and a decision is emitted, exactly when it holds. -/
def rocc_tick (rocc : rocc_data) (smp : Sample) : Bool :=
  let rocc1 := rocc_rtt_update rocc smp
  decide (tcp_stamp_us_delta smp.tsk_tcp_mstamp rocc1.last_update_tstamp ≥
    rocc1.min_rtt_us)

/-- Index of the slot written by a push (line 536): u16 head - 1, masked. -/
def rocc_push_idx (rocc : rocc_data) : Nat :=
  u16 (rocc.intervals_head + 65535) &&& rocc_num_intervals_mask

/-- The fresh interval written by a push (lines 537-549). -/
def rocc_push_iv (rocc : rocc_data) (smp : Sample) : rocc_interval :=
  { start_us := smp.tsk_tcp_mstamp
    pkts_acked := smp.rs_acked_sacked
    pkts_lost := smp.rs_losses
    app_limited := smp.rs_is_app_limited
    min_rtt_us := u32ofInt smp.rs_rtt_us
    max_rtt_us := u32ofInt smp.rs_rtt_us
    ic_bytes_sent := smp.tsk_bytes_sent
    ic_rs_prior_mstamp := smp.rs_prior_mstamp
    ic_rs_prior_delivered := smp.rs_prior_delivered
    ic_delivered := smp.tsk_delivered
    ic_sending_rate := rocc.sk_pacing_rate / smp.tsk_mss_cache
    processed := false
    invalid := false }

/-- Lines 536-549: advance the head and stamp the fresh slot. -/
def rocc_push (rocc : rocc_data) (smp : Sample) : rocc_data :=
  let h2 := rocc_push_idx rocc
  { rocc with intervals_head := h2
              intervals := ivSet rocc.intervals h2 (rocc_push_iv rocc smp) }

/-- The updated head slot written by a merge (lines 555-562). -/
def rocc_merge_iv (rocc : rocc_data) (smp : Sample) : rocc_interval :=
  let iv := ivGet rocc.intervals rocc.intervals_head
  { iv with
    pkts_acked := u32 (iv.pkts_acked + smp.rs_acked_sacked)
    pkts_lost := u32 (iv.pkts_lost + smp.rs_losses)
    app_limited := iv.app_limited || smp.rs_is_app_limited
    min_rtt_us := min (u32ofInt smp.rs_rtt_us) iv.min_rtt_us
    max_rtt_us := max (u32ofInt smp.rs_rtt_us) iv.max_rtt_us }

/-- Lines 555-562: merge the sample into the current head slot (the head
index is used unmasked, as in the source). -/
def rocc_merge (rocc : rocc_data) (smp : Sample) : rocc_data :=
  let l2 := ivSet rocc.intervals rocc.intervals_head (rocc_merge_iv rocc smp)
  { rocc with intervals := l2 }

/-- Lines 566-577: windowed acked/lost totals.  The loop accumulates the
slot first and then stops once a slot's start time falls out of the history
window (u64 sum start_us + hist_us, wrapped). -/
def histTotalsGo (intervals : List rocc_interval) (head hist_us timestamp : Nat) :
    Nat → Nat → Nat → Nat → Nat × Nat
  | _, 0, acked, lost => (acked, lost)
  | i, fuel+1, acked, lost =>
    let iv := ivGet intervals ((head + i) &&& rocc_num_intervals_mask)
    let acked2 := u32 (acked + iv.pkts_acked)
    let lost2 := u32 (lost + iv.pkts_lost)
    if u64 (iv.start_us + hist_us) < timestamp then (acked2, lost2)
    else histTotalsGo intervals head hist_us timestamp (i + 1) fuel acked2 lost2

/-- Lines 586-610 (the debug block) and 612: bookkeeping done on a decision
tick before the window/rate computation. -/
def rocc_debug_update (rocc : rocc_data) (smp : Sample) (timestamp mss : Nat) :
    rocc_data :=
  let rocc4 :=
    if rocc.last_update_tstamp > 0 then
      let elapsed := tcp_stamp_us_delta timestamp rocc.last_update_tstamp
      let this_estimated_segs_sent :=
        u64 (rocc.sk_pacing_rate * elapsed) / U64_S_TO_US / mss
      let tsk_sent := smp.tsk_bytes_sent / mss
      { rocc with
        last_segs_sent := tsk_sent
        last_segs_delivered := smp.tsk_delivered
        estimated_cumulative_segs_sent :=
          u64 (rocc.estimated_cumulative_segs_sent + this_estimated_segs_sent) }
    else rocc
  { rocc4 with last_update_tstamp := timestamp }

/-- Lines 615-660: the decision computation of a tick, ending in the two
lower-bound clamps.  Returns the updated state and the emitted
(cwnd, pacing rate) pair. -/
def rocc_decide (rocc : rocc_data) (smp : Sample) (mss alpha_rate : Nat) :
    rocc_data × Nat × Nat :=
  let b := rocc.beliefs
  let cwnd1 :=
    u32 (u64 (u64 (2 * b.max_c) * (2 * rocc.min_rtt_us)) / U64_S_TO_US)
  let cr : Nat × Nat :=
    if rocc.state = SLOW_START then
      if b.min_qdel > 0 then (cwnd1, u64 (b.min_c * mss) / 2)
      else (cwnd1, u64 (2 * b.min_c * mss))
    else
      if smp.rs_prior_in_flight > 2 * rocc_alpha_segments then
        (rocc_alpha_segments, rocc.sk_pacing_rate)
      else (cwnd1, u64 (u64 (2 * b.min_c_lambda * mss) + alpha_rate))
  let cwndF := max cr.1 rocc_alpha_segments
  let rateF := max cr.2 alpha_rate
  ({ rocc with snd_cwnd := cwndF, sk_pacing_rate := rateF }, cwndF, rateF)

/-- rocc_process_sample (lines 479-689): the cong_control entry point.
Returns the new state and, when a decision tick fired, the emitted
(cwnd, pacing rate) pair.  The rocc_valid guard of line 500 checks that the
interval buffer was allocated; in this embedding a rocc_data always carries
its buffer, so the guard is identically true and is omitted.  Divisions are
Nat divisions (division by zero yields 0); the divisors the C code would
evaluate are tracked separately by rocc_process_sample_divs. -/
def rocc_process_sample (rocc0 : rocc_data) (smp0 : Sample) :
    rocc_data × Option (Nat × Nat) :=
  let smp := smp0.norm
  if smp.rs_delivered < 0 ∨ smp.rs_interval_us < 0 then (rocc0, none)
  else
    let rocc1 := rocc_rtt_update rocc0 smp
    let hist_us :=
      if rocc1.min_rtt_us = U32MAX then U32MAX
      else u32 (rocc_history_periods * rocc1.min_rtt_us)
    let timestamp := smp.tsk_tcp_mstamp
    let mss := smp.tsk_mss_cache
    let tick := rocc_tick rocc0 smp
    let rocc2 :=
      if tick then
        update_beliefs (update_beliefs_send (rocc_push rocc1 smp) mss) mss
      else rocc_merge rocc1 smp
    let tot := histTotalsGo rocc2.intervals rocc2.intervals_head hist_us
      timestamp 0 16 0 0
    let loss_mode :=
      decide (tot.2 * 1024 > u32 (tot.1 + tot.2) * rocc_loss_thresh)
    let alpha_rate := rocc_alpha_rate rocc2.min_rtt_us mss
    let rocc3 := if loss_mode then { rocc2 with state := CONG_AVOID } else rocc2
    if tick then
      let rocc5 := rocc_debug_update rocc3 smp timestamp mss
      let d := rocc_decide rocc5 smp mss alpha_rate
      (d.1, some d.2)
    else (rocc3, none)

/-- Run a list of samples from an initial connection state. -/
def runS (p : InitParams) (cs : List Sample) : rocc_data :=
  cs.foldl (fun s c => (rocc_process_sample s c).1) (rocc_init p)

/-- A state is reachable when some sample sequence produces it from init. -/
def Reachable (s : rocc_data) : Prop :=
  ∃ p cs, s = runS p cs

/-- Projection of an interval onto every field except the processed flag. -/
def eraseP (iv : rocc_interval) : rocc_interval := { iv with processed := false }

/-- The slot index fully (re)written by one call: the freshly pushed slot on
a tick, the current head slot on a merge. -/
def rocc_touched_idx (rocc : rocc_data) (smp : Sample) : Nat :=
  if rocc_tick rocc smp.norm then rocc_push_idx rocc else rocc.intervals_head

/-- The divisors evaluated by update_beliefs: min_rtt_us (line 224), the
constant divisors 100, 100, 2 of the timeout branch (lines 283, 284, 299;
included unconditionally, so the list is a superset of the executed set),
and the denominators of the capacity scan. -/
def update_beliefs_divs (rocc : rocc_data) : List Nat :=
  [rocc.min_rtt_us, 100, 100, 2] ++
    ((ubScanWindows rocc).1.map (fun w => min_c_denom w rocc.min_rtt_us)) ++
    ((ubScanWindows rocc).2.map (fun w => max_c_denom w rocc.min_rtt_us))

/-- The divisors evaluated by one rocc_process_sample call on the branch it
takes.  Data-dependent divisors are listed exactly; constant divisors of
inner conditional branches (3 at line 412, 2 at line 619, 1e6 at lines
591/615, mss at lines 549/591/592) are included unconditionally, so on each
path the list is a superset of the divisors the C code evaluates there. -/
def rocc_process_sample_divs (rocc0 : rocc_data) (smp0 : Sample) : List Nat :=
  let smp := smp0.norm
  if smp.rs_delivered < 0 ∨ smp.rs_interval_us < 0 then []
  else
    let rocc1 := rocc_rtt_update rocc0 smp
    let mss := smp.tsk_mss_cache
    if rocc_tick rocc0 smp then
      let pushed := rocc_push rocc1 smp
      let afterSend := update_beliefs_send pushed mss
      [rocc_num_intervals, mss, 3] ++ (sendScan pushed mss).2.2.2 ++
        update_beliefs_divs afterSend ++
        [rocc1.min_rtt_us, U64_S_TO_US, mss, 2]
    else [rocc_num_intervals, rocc1.min_rtt_us]

/-! ### Concrete inputs used by the counterexamples and witnesses -/

def p0 : InitParams := ⟨0, 0, 10, 0⟩

/-- A sample with the given srtt, timestamp, ack/loss counts, RTT, byte and
delivery counters; the remaining fields are benign constants. -/
def mkSample (srtt mstamp acked losses : Nat) (rtt : Int)
    (bytes delivered priord inflight : Nat) : Sample :=
  { rs_delivered := 0, rs_interval_us := 0, rs_acked_sacked := acked
    rs_losses := losses, rs_is_app_limited := false, rs_rtt_us := rtt
    rs_prior_in_flight := inflight, rs_prior_mstamp := 0
    rs_prior_delivered := priord, tsk_srtt_us := srtt
    tsk_tcp_mstamp := mstamp, tsk_bytes_sent := bytes
    tsk_delivered := delivered, tsk_mss_cache := 1448 }

/-- First sample of a connection: srtt 800 us (so min_rtt_us becomes 100),
arriving at t = 150 us; it pushes the first interval. -/
def c1smp : Sample := mkSample 800 150 1 0 100 0 0 0 0

/-- The same first sample with mss_cache 10^9: alpha_segments * mss =
5e9 wraps mod 2^32 to 705032704 in the u32 product of lines 224/580. -/
def c2big : Sample := { c1smp with tsk_mss_cache := 1000000000 }

/-- The connection state at the update_beliefs call inside the processing of
c1smp: min_rtt updated, interval pushed, send-beliefs updated. -/
def c1r : rocc_data :=
  update_beliefs_send (rocc_push (rocc_rtt_update (rocc_init p0) c1smp.norm)
    c1smp.norm) 1448

/-- A sample whose loss count (10 lost, 0 acked) puts the window in loss
mode. -/
def c3smp : Sample := mkSample 800 150 0 10 100 0 0 0 0

/-- Four loss-free, low-RTT samples at t = 200, 300, 400, 500; each pushes
an interval, and the final one carries prior_delivered = 5 while all
tsk_delivered counters stay 0, so every interval passes the causality
gate. -/
def c4s1 : Sample := mkSample 800 200 1 0 100 0 0 0 0

def c4s2 : Sample := mkSample 800 300 1 0 100 14480 0 5 0

def c4s3 : Sample := mkSample 800 400 1 0 100 28960 0 5 0

def c4s4 : Sample := mkSample 800 500 1 0 100 43440 0 5 0

/-- The state at the update_beliefs_send call inside the processing of c4s2
(second push done, scan not yet run). -/
def c4pre : rocc_data :=
  rocc_push (rocc_rtt_update (runS p0 [c4s1]) c4s2.norm) c4s2.norm

/-- The state at the update_beliefs_send call inside the processing of c4s4
(fourth push done, scan not yet run).  The slot at offset 2 from the head
was marked processed by the two previous calls. -/
def c8pre : rocc_data :=
  rocc_push (rocc_rtt_update (runS p0 [c4s1, c4s2, c4s3]) c4s4.norm) c4s4.norm

/-- A valid sample carrying no RTT estimate (srtt 0) at t = 2^32 - 1 us. -/
def c6smp : Sample := mkSample 0 4294967295 0 0 100 0 0 0 0

/-- A valid sample carrying no RTT estimate at the ordinary time t = 50 us. -/
def c6w : Sample := mkSample 0 50 0 0 100 0 0 0 0

/-- Three lossy samples whose timestamps make consecutive interval starts
legal (each gap at least min_rtt) while the 32-bit truncated gap between the
head start and the two-pushes-old start is exactly min_rtt = 100: the gaps
are 2^31 and 2^31 + 100, summing to 2^32 + 100. -/
def g1 : Sample := mkSample 800 1000 0 10 100 0 0 0 0

def g2 : Sample := mkSample 800 2147484648 0 10 100 0 0 0 0

def g3 : Sample := mkSample 800 4294968396 0 10 100 0 0 0 0

/-! ### Frame lemmas: which fields each operation leaves untouched -/

@[simp]
theorem update_beliefs_intervals (r : rocc_data) (m : Nat) :
    (update_beliefs r m).intervals = r.intervals := rfl

@[simp]
theorem update_beliefs_head (r : rocc_data) (m : Nat) :
    (update_beliefs r m).intervals_head = r.intervals_head := rfl

@[simp]
theorem update_beliefs_min_rtt (r : rocc_data) (m : Nat) :
    (update_beliefs r m).min_rtt_us = r.min_rtt_us := rfl

@[simp]
theorem update_beliefs_state (r : rocc_data) (m : Nat) :
    (update_beliefs r m).state = r.state := rfl

@[simp]
theorem update_beliefs_send_intervals (r : rocc_data) (m : Nat) :
    (update_beliefs_send r m).intervals = (sendScan r m).1 := rfl

@[simp]
theorem update_beliefs_send_head (r : rocc_data) (m : Nat) :
    (update_beliefs_send r m).intervals_head = r.intervals_head := rfl

@[simp]
theorem update_beliefs_send_min_rtt (r : rocc_data) (m : Nat) :
    (update_beliefs_send r m).min_rtt_us = r.min_rtt_us := rfl

@[simp]
theorem update_beliefs_send_state (r : rocc_data) (m : Nat) :
    (update_beliefs_send r m).state = r.state := rfl

@[simp]
theorem rocc_push_head (r : rocc_data) (c : Sample) :
    (rocc_push r c).intervals_head = rocc_push_idx r := rfl

@[simp]
theorem rocc_push_intervals (r : rocc_data) (c : Sample) :
    (rocc_push r c).intervals =
      ivSet r.intervals (rocc_push_idx r) (rocc_push_iv r c) := rfl

@[simp]
theorem rocc_push_min_rtt (r : rocc_data) (c : Sample) :
    (rocc_push r c).min_rtt_us = r.min_rtt_us := rfl

@[simp]
theorem rocc_push_state (r : rocc_data) (c : Sample) :
    (rocc_push r c).state = r.state := rfl

@[simp]
theorem rocc_merge_head (r : rocc_data) (c : Sample) :
    (rocc_merge r c).intervals_head = r.intervals_head := rfl

@[simp]
theorem rocc_merge_intervals (r : rocc_data) (c : Sample) :
    (rocc_merge r c).intervals =
      ivSet r.intervals r.intervals_head (rocc_merge_iv r c) := rfl

@[simp]
theorem rocc_merge_min_rtt (r : rocc_data) (c : Sample) :
    (rocc_merge r c).min_rtt_us = r.min_rtt_us := rfl

@[simp]
theorem rocc_merge_state (r : rocc_data) (c : Sample) :
    (rocc_merge r c).state = r.state := rfl

@[simp]
theorem rocc_rtt_update_head (r : rocc_data) (c : Sample) :
    (rocc_rtt_update r c).intervals_head = r.intervals_head := by
  unfold rocc_rtt_update; split <;> rfl

@[simp]
theorem rocc_rtt_update_intervals (r : rocc_data) (c : Sample) :
    (rocc_rtt_update r c).intervals = r.intervals := by
  unfold rocc_rtt_update; split <;> rfl

@[simp]
theorem rocc_rtt_update_state (r : rocc_data) (c : Sample) :
    (rocc_rtt_update r c).state = r.state := by
  unfold rocc_rtt_update; split <;> rfl

@[simp]
theorem rocc_rtt_update_last_update (r : rocc_data) (c : Sample) :
    (rocc_rtt_update r c).last_update_tstamp = r.last_update_tstamp := by
  unfold rocc_rtt_update; split <;> rfl

@[simp]
theorem rocc_debug_update_intervals (r : rocc_data) (c : Sample) (t m : Nat) :
    (rocc_debug_update r c t m).intervals = r.intervals := by
  unfold rocc_debug_update; split <;> rfl

@[simp]
theorem rocc_debug_update_head (r : rocc_data) (c : Sample) (t m : Nat) :
    (rocc_debug_update r c t m).intervals_head = r.intervals_head := by
  unfold rocc_debug_update; split <;> rfl

@[simp]
theorem rocc_debug_update_min_rtt (r : rocc_data) (c : Sample) (t m : Nat) :
    (rocc_debug_update r c t m).min_rtt_us = r.min_rtt_us := by
  unfold rocc_debug_update; split <;> rfl

@[simp]
theorem rocc_debug_update_state (r : rocc_data) (c : Sample) (t m : Nat) :
    (rocc_debug_update r c t m).state = r.state := by
  unfold rocc_debug_update; split <;> rfl

@[simp]
theorem rocc_decide_intervals (r : rocc_data) (c : Sample) (m a : Nat) :
    (rocc_decide r c m a).1.intervals = r.intervals := rfl

@[simp]
theorem rocc_decide_head (r : rocc_data) (c : Sample) (m a : Nat) :
    (rocc_decide r c m a).1.intervals_head = r.intervals_head := rfl

@[simp]
theorem rocc_decide_min_rtt (r : rocc_data) (c : Sample) (m a : Nat) :
    (rocc_decide r c m a).1.min_rtt_us = r.min_rtt_us := rfl

@[simp]
theorem rocc_decide_state (r : rocc_data) (c : Sample) (m a : Nat) :
    (rocc_decide r c m a).1.state = r.state := rfl

/-- The two clamps of lines 658-660: every emitted pair is at or above the
floors. -/
theorem rocc_decide_floor (r : rocc_data) (c : Sample) (m a : Nat) :
    rocc_alpha_segments ≤ (rocc_decide r c m a).2.1 ∧
      a ≤ (rocc_decide r c m a).2.2 := by
  refine ⟨?_, ?_⟩ <;> simp only [rocc_decide] <;> exact Nat.le_max_right _ _

/-- min_rtt_us after the conditional belief-update step equals the
min_rtt_us entering it, on both branches. -/
theorem rocc2_min_rtt (r1 : rocc_data) (c : Sample) (m : Nat) (t : Bool) :
    (if t then update_beliefs (update_beliefs_send (rocc_push r1 c) m) m
      else rocc_merge r1 c).min_rtt_us = r1.min_rtt_us := by
  cases t <;> simp

/-! ### C5 -/

/-- C5: a sample whose (s32-wrapped) delivered count or (s64-wrapped)
interval length is negative leaves the connection state bit-for-bit
unchanged and produces no window/rate output. -/
theorem C5_reject_no_mutation (s : rocc_data) (smp : Sample)
    (h : smp.norm.rs_delivered < 0 ∨ smp.norm.rs_interval_us < 0) :
    rocc_process_sample s smp = (s, none) := by
  simp only [rocc_process_sample]
  rw [if_pos h]

theorem C5_witness :
    ((mkSample 800 150 1 0 100 0 0 0 0 : Sample).norm.rs_interval_us < 0 ∨ True) ∧
      rocc_process_sample (rocc_init p0)
        { c1smp with rs_delivered := -3 } =
        (rocc_init p0, none) :=
  ⟨Or.inr trivial,
    C5_reject_no_mutation (rocc_init p0) { c1smp with rs_delivered := -3 }
      (Or.inl (by decide))⟩

/-! ### C1 -/

/-- C1 (amended): a belief update at which the timeout test is false never
decreases min_c, and never raises max_c above the maximum of its previous
value and the alpha-rate lower clamp of line 312. -/
theorem C1_no_timeout_monotone (rocc : rocc_data) (mss : Nat)
    (h : update_beliefs_timeout rocc = false) :
    rocc.beliefs.min_c ≤ (update_beliefs rocc mss).beliefs.min_c ∧
      (update_beliefs rocc mss).beliefs.max_c ≤
        max rocc.beliefs.max_c (max_c_lower_clamp rocc.min_rtt_us mss) := by
  simp only [update_beliefs, h]
  constructor
  · exact Nat.le_max_left _ _
  · exact max_le_max (Nat.min_le_left _ _) le_rfl

theorem C1_witness :
    update_beliefs_timeout c1r = false ∧
      (c1r.beliefs.min_c ≤ (update_beliefs c1r 1448).beliefs.min_c ∧
        (update_beliefs c1r 1448).beliefs.max_c ≤
          max c1r.beliefs.max_c (max_c_lower_clamp c1r.min_rtt_us 1448)) :=
  ⟨by decide, C1_no_timeout_monotone c1r 1448 (by decide)⟩

/-- C1 counterexample: at the (reachable, mid-call) state c1r the timeout
test is false, yet update_beliefs raises max_c — from 100000 to 72400000 —
because the line-312 clamp exceeds the previous bound. -/
theorem C1_counterexample :
    update_beliefs_timeout c1r = false ∧
      (update_beliefs c1r 1448).beliefs.max_c > c1r.beliefs.max_c := by
  constructor <;> decide

/-! ### C2 -/

/-- C2 (amended): whenever a call emits a decision, the emitted window is
at least rocc_alpha_segments, and the emitted pacing rate is at least the
alpha rate as the program computes it — u32 (alpha_segments * mss) * 1e6 /
min_rtt_us with the post-update min_rtt_us — which coincides with the
claim's formula alpha_segments * mss * 1e6 / min_rtt_us exactly when
alpha_segments * mss < 2^32.  Against the claim's unwrapped formula the
floor fails once the u32 product wraps (see the counterexample). -/
theorem C2_floors (s : rocc_data) (smp : Sample) (out : Nat × Nat)
    (h : (rocc_process_sample s smp).2 = some out) :
    rocc_alpha_segments ≤ out.1 ∧
      rocc_alpha_rate (rocc_rtt_update s smp.norm).min_rtt_us
        smp.norm.tsk_mss_cache ≤ out.2 := by
  simp only [rocc_process_sample] at h
  split at h
  · exact absurd h (by simp)
  · rw [rocc2_min_rtt] at h
    split at h
    · simp only [Option.some.injEq] at h
      exact h ▸ rocc_decide_floor _ _ _ _
    · exact absurd h (by simp)

theorem C2_witness :
    (rocc_process_sample (rocc_init p0) c1smp).2 = some (28960, 72400000) ∧
      (rocc_alpha_segments ≤ (28960, 72400000).1 ∧
        rocc_alpha_rate (rocc_rtt_update (rocc_init p0) c1smp.norm).min_rtt_us
          c1smp.norm.tsk_mss_cache ≤ (28960, 72400000).2) :=
  ⟨by decide, C2_floors (rocc_init p0) c1smp (28960, 72400000) (by decide)⟩

/-- C2 counterexample: on the first sample with mss_cache = 10^9 (srtt 800,
t = 150, so min_rtt_us = 100), the u32 product 5 * 10^9 wraps to 705032704
and the program emits pacing rate 7050327040000, strictly below the claim's
formula alpha_segments * mss * 1e6 / min_rtt_us = 5e13: the for-all-inputs
rate floor stated against that formula is false of the program. -/
theorem C2_counterexample :
    (rocc_process_sample (rocc_init p0) c2big).2 =
        some (2820130816, 7050327040000) ∧
      7050327040000 <
        spec_alpha_rate (rocc_rtt_update (rocc_init p0) c2big.norm).min_rtt_us
          c2big.norm.tsk_mss_cache := by
  constructor <;> decide

/-! ### C3 -/

theorem ite_state_CA (c : Prop) [Decidable c] (r : rocc_data)
    (h : r.state = CONG_AVOID) :
    (if c then { r with state := CONG_AVOID } else r).state = CONG_AVOID := by
  split
  · rfl
  · exact h

/-- Line 581 is the only state assignment: a call never moves the state
away from CONG_AVOID. -/
theorem rocc_process_sample_CA (s : rocc_data) (c : Sample)
    (h : s.state = CONG_AVOID) :
    ((rocc_process_sample s c).1).state = CONG_AVOID := by
  simp only [rocc_process_sample]
  split
  · exact h
  · split
    · simp only [rocc_decide_state, rocc_debug_update_state]
      exact ite_state_CA _ _ (by simp [h])
    · exact ite_state_CA _ _ (by simp [h])

theorem runFrom_CA (cs : List Sample) :
    ∀ s : rocc_data, s.state = CONG_AVOID →
      (cs.foldl (fun t c => (rocc_process_sample t c).1) s).state = CONG_AVOID := by
  induction cs with
  | nil => exact fun _ h => h
  | cons c cs ih => exact fun s h => ih _ (rocc_process_sample_CA s c h)

/-- C3: the control state starts in SLOW_START, and once a run has reached
CONG_AVOID, no continuation of the run ever returns it to SLOW_START. -/
theorem C3_irreversible (p : InitParams) (cs cs2 : List Sample)
    (h : (runS p cs).state = CONG_AVOID) :
    (rocc_init p).state = SLOW_START ∧
      (runS p (cs ++ cs2)).state = CONG_AVOID := by
  refine ⟨rfl, ?_⟩
  rw [runS, List.foldl_append]
  exact runFrom_CA cs2 (runS p cs) h

theorem C3_witness :
    (runS p0 [c3smp]).state = CONG_AVOID ∧
      ((rocc_init p0).state = SLOW_START ∧
        (runS p0 ([c3smp] ++ [c1smp])).state = CONG_AVOID) :=
  ⟨by decide, C3_irreversible p0 [c3smp] [c1smp] (by decide)⟩

/-! ### List access lemmas -/

theorem ivSet_length (l : List rocc_interval) (i : Nat) (v : rocc_interval) :
    (ivSet l i v).length = l.length := List.length_set ..

theorem ivGet_ivSet_ne (l : List rocc_interval) (i j : Nat) (v : rocc_interval)
    (h : i ≠ j) : ivGet (ivSet l i v) j = ivGet l j := by
  simp [ivGet, ivSet, List.getD_eq_getElem?_getD, List.getElem?_set_ne h]

theorem ivGet_ivSet_self (l : List rocc_interval) (i : Nat) (v : rocc_interval)
    (h : i < l.length) : ivGet (ivSet l i v) i = v := by
  simp [ivGet, ivSet, List.getD_eq_getElem?_getD, List.getElem?_set_self h]

/-! ### Frame relation on interval lists: equal except processed flags,
with processed only ever turned on -/

def ivFrame (l l0 : List rocc_interval) : Prop :=
  l.length = l0.length ∧
  ∀ i, eraseP (ivGet l i) = eraseP (ivGet l0 i) ∧
    ((ivGet l0 i).processed = true → (ivGet l i).processed = true)

theorem ivFrame_refl (l : List rocc_interval) : ivFrame l l :=
  ⟨rfl, fun _ => ⟨rfl, id⟩⟩

theorem ivFrame_trans {l1 l2 l3 : List rocc_interval}
    (h12 : ivFrame l1 l2) (h23 : ivFrame l2 l3) : ivFrame l1 l3 :=
  ⟨h12.1.trans h23.1, fun i =>
    ⟨(h12.2 i).1.trans (h23.2 i).1, fun hp => (h12.2 i).2 ((h23.2 i).2 hp)⟩⟩

theorem ivFrame_set_processed (l : List rocc_interval) (j : Nat) :
    ivFrame (ivSet l j { ivGet l j with processed := true }) l := by
  refine ⟨ivSet_length .., fun i => ?_⟩
  rcases eq_or_ne j i with rfl | hne
  · by_cases hl : j < l.length
    · rw [ivGet_ivSet_self l j _ hl]
      exact ⟨rfl, fun _ => rfl⟩
    · unfold ivSet
      rw [List.set_eq_of_length_le (Nat.le_of_not_lt hl)]
      exact ⟨rfl, id⟩
  · rw [ivGet_ivSet_ne l j i _ hne]
    exact ⟨rfl, id⟩

theorem eraseP_invalid {a b : rocc_interval} (h : eraseP a = eraseP b) :
    a.invalid = b.invalid := by
  have h2 : (eraseP a).invalid = (eraseP b).invalid := congrArg _ h
  exact h2

theorem eraseP_ic_delivered {a b : rocc_interval} (h : eraseP a = eraseP b) :
    a.ic_delivered = b.ic_delivered := by
  have h2 : (eraseP a).ic_delivered = (eraseP b).ic_delivered := congrArg _ h
  exact h2

theorem eraseP_pkts_acked {a b : rocc_interval} (h : eraseP a = eraseP b) :
    a.pkts_acked = b.pkts_acked := by
  have h2 : (eraseP a).pkts_acked = (eraseP b).pkts_acked := congrArg _ h
  exact h2

theorem eraseP_pkts_lost {a b : rocc_interval} (h : eraseP a = eraseP b) :
    a.pkts_lost = b.pkts_lost := by
  have h2 : (eraseP a).pkts_lost = (eraseP b).pkts_lost := congrArg _ h
  exact h2

theorem eraseP_max_rtt_us {a b : rocc_interval} (h : eraseP a = eraseP b) :
    a.max_rtt_us = b.max_rtt_us := by
  have h2 : (eraseP a).max_rtt_us = (eraseP b).max_rtt_us := congrArg _ h
  exact h2

theorem sendUnder_congr {l l0 : List rocc_interval} (hf : ivFrame l l0)
    (rtprop et st : Nat) :
    sendUnder l rtprop et st = sendUnder l0 rtprop et st := by
  simp only [sendUnder]
  rw [eraseP_pkts_acked (hf.2 _).1, eraseP_pkts_lost (hf.2 _).1,
    eraseP_max_rtt_us (hf.2 _).1]

/-- The send-rate scan only flips processed flags on: its interval-list
result is in the frame relation with its input. -/
theorem sendScanGo_ivFrame (mss rtprop dla et : Nat) :
    ∀ (fuel st : Nat) (l : List rocc_interval) (cum : Bool) (lam : Nat)
      (cs ds : List Nat),
      ivFrame (sendScanGo mss rtprop dla et l st fuel cum lam cs ds).1 l := by
  intro fuel
  induction fuel with
  | zero => intro st l cum lam cs ds; exact ivFrame_refl l
  | succ n ih =>
    intro st l cum lam cs ds
    simp only [sendScanGo]
    split
    · exact ivFrame_refl l
    · split
      · exact ih ..
      · split
        · exact ivFrame_trans (ih ..) (ivFrame_set_processed ..)
        · exact ivFrame_set_processed ..

/-- The causality gate of line 376, in passing form: the successor
interval's delivered counter has not surpassed the 1-RTT-ago cutoff. -/
def sendGate (l : List rocc_interval) (et dla st : Nat) : Prop :=
  (ivGet l ((et + st - 1) &&& rocc_num_intervals_mask)).ic_delivered ≤ dla

/-- Every index that contributes to new_min_c_lambda passed the causality
gate, was reached through an all-valid prefix, and still had the cumulative
under-utilization flag true. -/
theorem sendScanGo_contribs_spec (mss rtprop dla et : Nat)
    (l0 : List rocc_interval) :
    ∀ (fuel st : Nat) (l : List rocc_interval) (cum : Bool) (lam : Nat)
      (cs ds : List Nat), ivFrame l l0 →
      ∀ j, j ∈ (sendScanGo mss rtprop dla et l st fuel cum lam cs ds).2.2.1 →
        j ∈ cs ∨ (st ≤ j ∧ sendGate l0 et dla j ∧
          sendCumThrough l0 rtprop et cum st (j + 1 - st) = true ∧
          ∀ k, st ≤ k → k ≤ j →
            (ivGet l0 ((et + k) &&& rocc_num_intervals_mask)).invalid = false) := by
  intro fuel
  induction fuel with
  | zero => intro st l cum lam cs ds _ j hj; exact Or.inl hj
  | succ n ih =>
    intro st l cum lam cs ds hf j hj
    simp only [sendScanGo] at hj
    split at hj
    · exact Or.inl hj
    · rename_i hval
      have hval0 : (ivGet l0 ((et + st) &&& rocc_num_intervals_mask)).invalid = false := by
        rw [← eraseP_invalid (hf.2 _).1]
        simpa using hval
      have hcum2 :
          (cum && (!get_loss_mode
              (ivGet l ((et + st) &&& rocc_num_intervals_mask)).pkts_acked
              (ivGet l ((et + st) &&& rocc_num_intervals_mask)).pkts_lost &&
            !decide ((ivGet l ((et + st) &&& rocc_num_intervals_mask)).max_rtt_us >
              u32 (rtprop + rtprop)))) =
            (cum && sendUnder l0 rtprop et st) := by
        rw [← sendUnder_congr hf rtprop et st]; rfl
      split at hj
      · rcases ih (st + 1) l _ lam cs ds hf j hj with hin | hspec
        · exact Or.inl hin
        · refine Or.inr ⟨Nat.le_of_succ_le hspec.1, hspec.2.1, ?_, ?_⟩
          · have hk : j + 1 - st = (j - st) + 1 := by omega
            have hk2 : j + 1 - (st + 1) = j - st := by omega
            rw [hk]
            show sendCumThrough l0 rtprop et
              (cum && sendUnder l0 rtprop et st) (st + 1) (j - st) = true
            rw [← hk2, ← hcum2]
            exact hspec.2.2.1
          · intro k hk1 hk2
            rcases Nat.eq_or_lt_of_le hk1 with rfl | hlt
            · exact hval0
            · exact hspec.2.2.2 k hlt hk2
      · split at hj
        · rename_i hgate hcum
          rcases ih (st + 1) _ _ _ (cs ++ [st]) _
              (ivFrame_trans (ivFrame_set_processed l _) hf) j hj with hin | hspec
          · rcases List.mem_append.1 hin with hin | hst
            · exact Or.inl hin
            · have hj : j = st := List.mem_singleton.1 hst
              subst hj
              refine Or.inr ⟨le_rfl, ?_, ?_, ?_⟩
              · unfold sendGate
                rw [← eraseP_ic_delivered (hf.2 _).1]
                exact Nat.le_of_not_lt (by simpa using hgate)
              · have hk : j + 1 - j = 1 := by omega
                rw [hk]
                show sendCumThrough l0 rtprop et
                  (cum && sendUnder l0 rtprop et j) (j + 1) 0 = true
                have : (cum && sendUnder l0 rtprop et j) = true := by
                  rw [← hcum2]; exact hcum
                simpa [sendCumThrough] using this
              · intro k hk1 hk2
                have : k = j := Nat.le_antisymm hk2 hk1
                subst this
                exact hval0
          · refine Or.inr ⟨Nat.le_of_succ_le hspec.1, hspec.2.1, ?_, ?_⟩
            · have hk : j + 1 - st = (j - st) + 1 := by omega
              have hk2 : j + 1 - (st + 1) = j - st := by omega
              rw [hk]
              show sendCumThrough l0 rtprop et
                (cum && sendUnder l0 rtprop et st) (st + 1) (j - st) = true
              rw [← hk2, ← hcum2]
              exact hspec.2.2.1
            · intro k hk1 hk2
              rcases Nat.eq_or_lt_of_le hk1 with rfl | hlt
              · exact hval0
              · exact hspec.2.2.2 k hlt hk2
        · exact Or.inl hj

theorem sendScan_ivFrame (r : rocc_data) (mss : Nat) :
    ivFrame (sendScan r mss).1 r.intervals := by
  simp only [sendScan]
  exact sendScanGo_ivFrame ..

theorem sendScan_contribs_spec (r : rocc_data) (mss : Nat) (j : Nat)
    (hj : j ∈ sendScanContribs r mss) :
    1 ≤ j ∧
      sendGate r.intervals r.intervals_head
        (ivGet r.intervals
          (r.intervals_head &&& rocc_num_intervals_mask)).ic_rs_prior_delivered j ∧
      sendCumThrough r.intervals r.min_rtt_us r.intervals_head
        (sendCum0 r) 1 (j + 1 - 1) = true ∧
      ∀ k, 1 ≤ k → k ≤ j →
        (ivGet r.intervals
          ((r.intervals_head + k) &&& rocc_num_intervals_mask)).invalid = false := by
  simp only [sendScanContribs, sendScan] at hj
  rcases sendScanGo_contribs_spec mss r.min_rtt_us
      (ivGet r.intervals
        (r.intervals_head &&& rocc_num_intervals_mask)).ic_rs_prior_delivered
      r.intervals_head r.intervals 15 1 r.intervals (sendCum0 r) INIT_MIN_C
      [] [] (ivFrame_refl _) j hj with hin | hspec
  · exact absurd hin (List.not_mem_nil j)
  · exact hspec

/-! ### C4 -/

/-- C4 (amended): an interval contributes to the new min_c_lambda candidate
only if its successor interval's delivered counter recorded at creation has
NOT surpassed the 1-RTT-ago delivered cutoff recorded in the head interval;
an interval whose successor has surpassed the cutoff is skipped. -/
theorem C4_causality_gate (rocc : rocc_data) (mss st : Nat)
    (h : st ∈ sendScanContribs rocc mss) :
    (ivGet rocc.intervals
        ((rocc.intervals_head + st - 1) &&&
          rocc_num_intervals_mask)).ic_delivered ≤
      (ivGet rocc.intervals
        (rocc.intervals_head &&& rocc_num_intervals_mask)).ic_rs_prior_delivered :=
  (sendScan_contribs_spec rocc mss st h).2.1

/-- C4 counterexample: at the reachable mid-call state c4pre, index 1
contributes to new_min_c_lambda although its successor's delivered counter
(0) has not surpassed the head's 1-RTT-ago cutoff (5): the code keeps
exactly the intervals the claim says it excludes. -/
theorem C4_counterexample :
    1 ∈ sendScanContribs c4pre 1448 ∧
      ¬((ivGet c4pre.intervals
          ((c4pre.intervals_head + 1 - 1) &&&
            rocc_num_intervals_mask)).ic_delivered >
        (ivGet c4pre.intervals
          (c4pre.intervals_head &&&
            rocc_num_intervals_mask)).ic_rs_prior_delivered) := by
  constructor <;> decide

theorem C4_witness :
    1 ∈ sendScanContribs c4pre 1448 ∧
      (ivGet c4pre.intervals
          ((c4pre.intervals_head + 1 - 1) &&&
            rocc_num_intervals_mask)).ic_delivered ≤
        (ivGet c4pre.intervals
          (c4pre.intervals_head &&&
            rocc_num_intervals_mask)).ic_rs_prior_delivered :=
  ⟨by decide, C4_causality_gate c4pre 1448 1 (by decide)⟩

/-! ### C8 -/

/-- C8 (amended): every index that contributes to new_min_c_lambda was
reached through a prefix of valid intervals with the cumulative
under-utilization flag still true — the scan stops at the first invalid
interval or at the first gate-passing interval breaking cumulative
under-utilization.  The processed flag does not stop the scan (see the
counterexample). -/
theorem C8_scan_stop (rocc : rocc_data) (mss st : Nat)
    (h : st ∈ sendScanContribs rocc mss) :
    (∀ k, 1 ≤ k → k ≤ st →
      (ivGet rocc.intervals
        ((rocc.intervals_head + k) &&&
          rocc_num_intervals_mask)).invalid = false) ∧
      sendCumThrough rocc.intervals rocc.min_rtt_us rocc.intervals_head
        (sendCum0 rocc) 1 st = true := by
  have hs := sendScan_contribs_spec rocc mss st h
  refine ⟨hs.2.2.2, ?_⟩
  have : st + 1 - 1 = st := by omega
  exact this ▸ hs.2.2.1

/-- C8 counterexample: at the reachable mid-call state c8pre the interval
at offset 2 from the head is already marked processed, yet the scan
examines the older interval at offset 3 and folds it into
new_min_c_lambda — the scan does not terminate at the first processed
interval. -/
theorem C8_counterexample :
    (ivGet c8pre.intervals
        ((c8pre.intervals_head + 2) &&& rocc_num_intervals_mask)).processed =
        true ∧
      3 ∈ sendScanContribs c8pre 1448 := by
  constructor <;> decide

theorem C8_witness :
    3 ∈ sendScanContribs c8pre 1448 ∧
      (ivGet c8pre.intervals
          ((c8pre.intervals_head + 1) &&& rocc_num_intervals_mask)).invalid =
        false ∧
      sendCumThrough c8pre.intervals c8pre.min_rtt_us c8pre.intervals_head
        (sendCum0 c8pre) 1 3 = true :=
  ⟨by decide,
    (C8_scan_stop c8pre 1448 3 (by decide)).1 1 (by decide) (by decide),
    (C8_scan_stop c8pre 1448 3 (by decide)).2⟩

/-! ### C9 -/

theorem rocc_push_idx_rtt (s : rocc_data) (c : Sample) :
    rocc_push_idx (rocc_rtt_update s c) = rocc_push_idx s := by
  simp [rocc_push_idx]

/-- C9 (amended): a call fully rewrites only one slot — the pushed slot on
a tick, the head slot on a merge.  Every other slot keeps all fields except
possibly the processed flag, which is only ever turned on (by the
update_beliefs_send scan). -/
theorem C9_frame_processed_only (s : rocc_data) (smp : Sample) (i : Nat)
    (hne : i ≠ rocc_touched_idx s smp) :
    eraseP (ivGet ((rocc_process_sample s smp).1).intervals i) =
        eraseP (ivGet s.intervals i) ∧
      ((ivGet s.intervals i).processed = true →
        (ivGet ((rocc_process_sample s smp).1).intervals i).processed = true) := by
  simp only [rocc_process_sample]
  split
  · exact ⟨rfl, id⟩
  · split
    · rename_i htick
      have hne2 : rocc_push_idx s ≠ i := by
        intro he
        exact hne (by rw [rocc_touched_idx, if_pos htick, he])
      simp only [rocc_decide_intervals, rocc_debug_update_intervals,
        apply_ite rocc_data.intervals, update_beliefs_intervals,
        update_beliefs_send_intervals, ite_self]
      have hfr := sendScan_ivFrame
        (rocc_push (rocc_rtt_update s smp.norm) smp.norm) smp.norm.tsk_mss_cache
      have hset :
          ivGet (rocc_push (rocc_rtt_update s smp.norm) smp.norm).intervals i =
            ivGet s.intervals i := by
        rw [rocc_push_intervals, rocc_rtt_update_intervals, rocc_push_idx_rtt]
        exact ivGet_ivSet_ne _ _ _ _ hne2
      refine ⟨?_, ?_⟩
      · rw [(hfr.2 i).1, hset]
      · intro hp
        exact (hfr.2 i).2 (by rw [hset]; exact hp)
    · rename_i htick
      have hne2 : s.intervals_head ≠ i := by
        intro he
        exact hne (by rw [rocc_touched_idx, if_neg htick, he])
      simp only [apply_ite rocc_data.intervals, rocc_merge_intervals,
        rocc_rtt_update_intervals, rocc_rtt_update_head, ite_self]
      rw [ivGet_ivSet_ne _ _ _ _ hne2]
      exact ⟨rfl, id⟩

/-- C9 counterexample: processing c4s2 from the reachable state after c4s1
flips the processed flag of slot 15, which is not the slot the call pushes
(slot 14): superseded intervals are not immutable. -/
theorem C9_counterexample :
    (15 ≠ rocc_touched_idx (runS p0 [c4s1]) c4s2) ∧
      (ivGet (runS p0 [c4s1]).intervals 15).processed = false ∧
      (ivGet ((rocc_process_sample (runS p0 [c4s1]) c4s2).1).intervals
          15).processed = true := by
  refine ⟨by decide, by decide, by decide⟩

theorem C9_witness :
    (3 ≠ rocc_touched_idx (runS p0 [c4s1]) c4s2) ∧
      (eraseP (ivGet ((rocc_process_sample (runS p0 [c4s1]) c4s2).1).intervals 3) =
          eraseP (ivGet (runS p0 [c4s1]).intervals 3) ∧
        ((ivGet (runS p0 [c4s1]).intervals 3).processed = true →
          (ivGet ((rocc_process_sample (runS p0 [c4s1]) c4s2).1).intervals
              3).processed = true)) :=
  ⟨by decide, C9_frame_processed_only (runS p0 [c4s1]) c4s2 3 (by decide)⟩

/-! ### Reachability invariants -/

theorem and_mask_lt (n : Nat) :
    n &&& rocc_num_intervals_mask < rocc_num_intervals := by
  have h : n &&& rocc_num_intervals_mask ≤ rocc_num_intervals_mask :=
    Nat.and_le_right
  simp only [rocc_num_intervals_mask, rocc_num_intervals] at *
  omega

theorem and_mask_id {n : Nat} (h : n < 16) :
    n &&& rocc_num_intervals_mask = n := by
  simp only [rocc_num_intervals_mask]
  interval_cases n <;> rfl

theorem rocc_push_idx_lt (r : rocc_data) : rocc_push_idx r < rocc_num_intervals := by
  unfold rocc_push_idx
  exact and_mask_lt _

/-- One call keeps the head in range and the buffer length at 16. -/
theorem rocc_process_sample_head_len (s : rocc_data) (c : Sample)
    (h : s.intervals_head < 16 ∧ s.intervals.length = 16) :
    ((rocc_process_sample s c).1).intervals_head < 16 ∧
      ((rocc_process_sample s c).1).intervals.length = 16 := by
  simp only [rocc_process_sample]
  split
  · exact h
  · split
    · constructor
      · simp only [rocc_decide_head, rocc_debug_update_head,
          apply_ite rocc_data.intervals_head, update_beliefs_head,
          update_beliefs_send_head, rocc_push_head, ite_self]
        have := rocc_push_idx_lt (rocc_rtt_update s c.norm)
        simpa [rocc_num_intervals] using this
      · simp only [rocc_decide_intervals, rocc_debug_update_intervals,
          apply_ite rocc_data.intervals, update_beliefs_intervals,
          update_beliefs_send_intervals, ite_self]
        rw [(sendScan_ivFrame _ _).1, rocc_push_intervals, ivSet_length,
          rocc_rtt_update_intervals]
        exact h.2
    · constructor
      · simp only [apply_ite rocc_data.intervals_head, rocc_merge_head,
          rocc_rtt_update_head, ite_self]
        exact h.1
      · simp only [apply_ite rocc_data.intervals, rocc_merge_intervals,
          rocc_rtt_update_intervals, rocc_rtt_update_head, ite_self]
        rw [ivSet_length]
        exact h.2

theorem Reachable_head_len (s : rocc_data) (h : Reachable s) :
    s.intervals_head < 16 ∧ s.intervals.length = 16 := by
  obtain ⟨p, cs, rfl⟩ := h
  rw [runS]
  have hrun : ∀ (cs : List Sample) (t : rocc_data),
      t.intervals_head < 16 ∧ t.intervals.length = 16 →
      (cs.foldl (fun u c => (rocc_process_sample u c).1) t).intervals_head < 16 ∧
        (cs.foldl (fun u c => (rocc_process_sample u c).1) t).intervals.length = 16 := by
    intro cs
    induction cs with
    | nil => exact fun _ h => h
    | cons c cs ih => exact fun t ht => ih _ (rocc_process_sample_head_len t c ht)
  refine hrun cs (rocc_init p) ⟨by norm_num [rocc_init], ?_⟩
  simp [rocc_init, rocc_num_intervals]

/-- One call keeps min_rtt_us at least 1. -/
theorem rocc_process_sample_min_rtt_pos (s : rocc_data) (c : Sample)
    (h : 1 ≤ s.min_rtt_us) : 1 ≤ ((rocc_process_sample s c).1).min_rtt_us := by
  have h1 : 1 ≤ (rocc_rtt_update s c.norm).min_rtt_us := by
    unfold rocc_rtt_update
    split
    · unfold rtt_us_of
      split
      · exact Nat.le_max_right _ _
      · norm_num [U32MAX]
    · exact h
  simp only [rocc_process_sample]
  split
  · exact h
  · split
    · simp only [rocc_decide_min_rtt, rocc_debug_update_min_rtt,
        apply_ite rocc_data.min_rtt_us, update_beliefs_min_rtt,
        update_beliefs_send_min_rtt, rocc_push_min_rtt, ite_self]
      exact h1
    · simp only [apply_ite rocc_data.min_rtt_us, rocc_merge_min_rtt, ite_self]
      exact h1

theorem Reachable_min_rtt_pos (s : rocc_data) (h : Reachable s) :
    1 ≤ s.min_rtt_us := by
  obtain ⟨p, cs, rfl⟩ := h
  rw [runS]
  have hrun : ∀ (cs : List Sample) (t : rocc_data), 1 ≤ t.min_rtt_us →
      1 ≤ (cs.foldl (fun u c => (rocc_process_sample u c).1) t).min_rtt_us := by
    intro cs
    induction cs with
    | nil => exact fun _ h => h
    | cons c cs ih => exact fun t ht => ih _ (rocc_process_sample_min_rtt_pos t c ht)
  exact hrun cs (rocc_init p) (by norm_num [rocc_init, U32MAX])

/-! ### C10 -/

/-- C10: in every reachable state the head lies in [0, 15] (so the unmasked
head-indexed reads and writes are in range and masking the head is the
identity), the buffer has exactly 16 slots, and every masked scan index
(head + st) land 15 addresses one of the 16 slots. -/
theorem C10_index_bounds (s : rocc_data) (st : Nat) (h : Reachable s) :
    s.intervals_head < 16 ∧
      (s.intervals_head &&& rocc_num_intervals_mask) = s.intervals_head ∧
      s.intervals.length = rocc_num_intervals ∧
      ((s.intervals_head + st) &&& rocc_num_intervals_mask) <
        rocc_num_intervals := by
  have hh := Reachable_head_len s h
  refine ⟨hh.1, and_mask_id hh.1, ?_, and_mask_lt _⟩
  simpa [rocc_num_intervals] using hh.2

theorem C10_witness :
    Reachable (runS p0 [c4s1]) ∧
      ((runS p0 [c4s1]).intervals_head < 16 ∧
        ((runS p0 [c4s1]).intervals_head &&& rocc_num_intervals_mask) =
          (runS p0 [c4s1]).intervals_head ∧
        (runS p0 [c4s1]).intervals.length = rocc_num_intervals ∧
        (((runS p0 [c4s1]).intervals_head + 3) &&& rocc_num_intervals_mask) <
          rocc_num_intervals) :=
  ⟨⟨p0, [c4s1], rfl⟩, C10_index_bounds (runS p0 [c4s1]) 3 ⟨p0, [c4s1], rfl⟩⟩

/-! ### C7 -/

/-- C7 (amended): jitter equals min_rtt_us, which is at least 1 in every
reachable state, so a min_c denominator u32 (window + jitter) is nonzero
whenever the u32 sum does not wrap; the max_c denominator, by contrast, is
the u32 difference window - jitter and can be zero (see the
counterexample). -/
theorem C7_min_denom_nonzero (s : rocc_data) (w : Nat) (h : Reachable s)
    (_hw : w ∈ (ubScanWindows s).1) (hlt : w + s.min_rtt_us < U32C) :
    min_c_denom w s.min_rtt_us ≠ 0 := by
  have hpos := Reachable_min_rtt_pos s h
  unfold min_c_denom u32
  rw [Nat.mod_eq_of_lt hlt]
  omega

/-- C7 counterexample: after the reachable run g1, g2, g3 the capacity scan
executes a max_c division whose raw window is 100 = min_rtt_us, and the
denominator window - jitter is 0: the claim's "neither division divides by
zero" fails, and the max_c denominator carries a subtracted, not added,
jitter term. -/
theorem C7_counterexample :
    100 ∈ (ubScanWindows (runS p0 [g1, g2, g3])).2 ∧
      (runS p0 [g1, g2, g3]).min_rtt_us = 100 ∧
      max_c_denom 100 100 = 0 := by
  refine ⟨by decide, by decide, by decide⟩

theorem C7_witness :
    Reachable (runS p0 [c4s1, c4s2]) ∧
      100 ∈ (ubScanWindows (runS p0 [c4s1, c4s2])).1 ∧
      100 + (runS p0 [c4s1, c4s2]).min_rtt_us < U32C ∧
      min_c_denom 100 (runS p0 [c4s1, c4s2]).min_rtt_us ≠ 0 :=
  ⟨⟨p0, [c4s1, c4s2], rfl⟩, by decide, by decide,
    C7_min_denom_nonzero (runS p0 [c4s1, c4s2]) 100 ⟨p0, [c4s1, c4s2], rfl⟩
      (by decide) (by decide)⟩

/-! ### C6 -/

/-- C6 (amended): while min_rtt_us is still U32MAX (no RTT sample yet), a
call whose 32-bit-truncated elapsed time since the last update is below
U32MAX emits no window/rate output, and every divisor evaluated on that
path (the constant 16 and min_rtt_us = U32MAX) is nonzero.  A call with
truncated elapsed time equal to U32MAX does fire a decision tick — see the
counterexample. -/
theorem C6_no_rtt_suspended (s : rocc_data) (smp : Sample)
    (h1 : s.min_rtt_us = U32MAX) (h2 : smp.norm.tsk_srtt_us = 0)
    (h3 : tcp_stamp_us_delta smp.norm.tsk_tcp_mstamp s.last_update_tstamp <
      U32MAX) :
    (rocc_process_sample s smp).2 = none ∧
      0 ∉ rocc_process_sample_divs s smp := by
  have hrtt : rtt_us_of smp.norm = U32MAX := by
    simp [rtt_us_of, h2]
  have hupd : rocc_rtt_update s smp.norm = s := by
    unfold rocc_rtt_update
    rw [hrtt, h1, if_neg (lt_irrefl _)]
  have htick : rocc_tick s smp.norm = false := by
    simp only [rocc_tick, hupd, h1]
    simpa using Nat.not_le.2 h3
  constructor
  · simp only [rocc_process_sample]
    split
    · rfl
    · rw [htick]
      simp
  · simp only [rocc_process_sample_divs]
    split
    · simp
    · rw [htick]
      simp [hupd, h1, rocc_num_intervals, U32MAX]

/-- C6 counterexample: from the initial state (min_rtt_us = U32MAX, last
update at 0), a valid sample with no RTT estimate arriving at
t = 2^32 - 1 us fires a decision tick and writes a window/rate pair, so
"no decision tick ever fires" fails even though min_rtt_us is still
U32MAX. -/
theorem C6_counterexample :
    (rocc_init p0).min_rtt_us = U32MAX ∧ c6smp.tsk_srtt_us = 0 ∧
      ((rocc_process_sample (rocc_init p0) c6smp).1).min_rtt_us = U32MAX ∧
      (rocc_process_sample (rocc_init p0) c6smp).2 ≠ none := by
  refine ⟨by decide, by decide, by decide, by decide⟩

theorem C6_witness :
    (rocc_init p0).min_rtt_us = U32MAX ∧ c6w.norm.tsk_srtt_us = 0 ∧
      tcp_stamp_us_delta c6w.norm.tsk_tcp_mstamp
        (rocc_init p0).last_update_tstamp < U32MAX ∧
      ((rocc_process_sample (rocc_init p0) c6w).2 = none ∧
        0 ∉ rocc_process_sample_divs (rocc_init p0) c6w) :=
  ⟨by decide, by decide, by decide,
    C6_no_rtt_suspended (rocc_init p0) c6w (by decide) (by decide) (by decide)⟩

end Rocc
